import Mathlib

/-!
Verification of the jump-list subsystem of `atom/browser/browser_win.cc`.

The C++ core is shallowly embedded: the pure data model (`JumpListItem`,
`JumpListCategory`, `JumpListResult`) is translated directly; every native
shell call (object creation, per-item append, `AddUserTasks`,
`AppendCategory`, `AppendKnownCategory`, `SetAppID`, `BeginList`,
`CommitList`, `AbortList`, `DeleteList`) is modelled by an environment
record that fixes the outcome of each call, so the embedded functions are
deterministic in the environment.  HRESULT values are modelled as their
32-bit unsigned bit patterns (`Nat`), with `FAILED hr` meaning the sign
bit is set, matching the Windows `FAILED` macro and the C++ comparisons
`hr == 0x80040F03` / `hr == E_ACCESSDENIED` on bit patterns.
-/

namespace BrowserWin

/-- `JumpListItem::Type` from browser_win.cc. -/
inductive JumpListItemType where
  | TASK
  | SEPARATOR
  | FILE
deriving DecidableEq, Repr

/-- `JumpListItem` from browser_win.cc.  `base::FilePath` and
`base::string16` fields are modelled as `String`. -/
structure JumpListItem where
  type : JumpListItemType
  path : String
  arguments : String
  title : String
  description : String
  icon_path : String
  icon_index : Int
deriving DecidableEq, Repr

/-- `JumpListCategory::Type` from browser_win.cc. -/
inductive JumpListCategoryType where
  | CUSTOM
  | FREQUENT
  | RECENT
  | TASKS
deriving DecidableEq, Repr

/-- `JumpListCategory` from browser_win.cc. -/
structure JumpListCategory where
  type : JumpListCategoryType
  name : String
  items : List JumpListItem
deriving DecidableEq, Repr

/-- `JumpListResult` (declared in browser.h, used throughout
browser_win.cc). -/
inductive JumpListResult where
  | SUCCESS
  | ARGUMENT_ERROR
  | GENERIC_ERROR
  | CUSTOM_CATEGORY_SEPARATOR_ERROR
  | MISSING_FILE_TYPE_REGISTRATION_ERROR
  | CUSTOM_CATEGORY_ACCESS_DENIED_ERROR
deriving DecidableEq, Repr

/-- The Windows `E_ACCESSDENIED` HRESULT, as a 32-bit bit pattern. -/
def E_ACCESSDENIED : Nat := 0x80070005

/-- The literal `0x80040F03` compared against in `AppendCategory`
(missing file type registration). -/
def kMissingFileTypeRegistrationHr : Nat := 0x80040F03

/-- The Windows `FAILED` macro: an HRESULT is a failure when its sign bit
is set.  HRESULTs are modelled as 32-bit unsigned bit patterns. -/
def FAILED (hr : Nat) : Bool := decide (2 ^ 31 ≤ hr ∧ hr < 2 ^ 32)

/-- Outcomes of the native shell calls made while appending one category:
whether `CoCreateInstance(CLSID_EnumerableObjectCollection)` succeeds,
whether the builder call (`AppendTask` / `AppendSeparator` / `AppendFile`)
for the item at a given loop position succeeds, whether
`AddUserTasks` succeeds, and the HRESULT of
`ICustomDestinationList::AppendCategory`. -/
structure CategoryEnv where
  createCollectionOk : Bool
  appendOk : Nat → JumpListItem → Bool
  addUserTasksOk : Bool
  appendCategoryHr : Nat

/-- State produced by the per-item loop of `AppendCategory`:
the `result` variable, the `appended_count` variable, and the list of
loop positions at which a native append was attempted (a `TASK` or `FILE`
builder call, or a `SEPARATOR` builder call inside the Tasks category;
a separator in any other category is not attempted). -/
structure LoopState where
  result : JumpListResult
  appended_count : Nat
  attempted : List Nat
deriving DecidableEq, Repr

/-- The `for (const auto& item : category.items)` loop of
`AppendCategory` (browser_win.cc lines 400-431).  `i` is the position of
the head of `items` in the original list, `r` and `cnt` are the current
values of `result` and `appended_count`. -/
def appendItemsLoop (env : CategoryEnv) (ctype : JumpListCategoryType) :
    List JumpListItem → Nat → JumpListResult → Nat → LoopState
  | [], _, r, cnt => ⟨r, cnt, []⟩
  | item :: rest, i, r, cnt =>
    match item.type with
    | .TASK =>
      let s := appendItemsLoop env ctype rest (i + 1) r
        (if env.appendOk i item then cnt + 1 else cnt)
      { s with attempted := i :: s.attempted }
    | .SEPARATOR =>
      if ctype = .TASKS then
        let s := appendItemsLoop env ctype rest (i + 1) r
          (if env.appendOk i item then cnt + 1 else cnt)
        { s with attempted := i :: s.attempted }
      else
        appendItemsLoop env ctype rest (i + 1)
          .CUSTOM_CATEGORY_SEPARATOR_ERROR cnt
    | .FILE =>
      let s := appendItemsLoop env ctype rest (i + 1) r
        (if env.appendOk i item then cnt + 1 else cnt)
      { s with attempted := i :: s.attempted }

/-- `AppendCategory` (browser_win.cc lines 385-471). -/
def AppendCategory (env : CategoryEnv) (category : JumpListCategory) :
    JumpListResult :=
  if category.items.isEmpty then .SUCCESS
  else if env.createCollectionOk = false then .GENERIC_ERROR
  else
    let st := appendItemsLoop env category.type category.items 0 .SUCCESS 0
    if st.appended_count = 0 then st.result
    else
      let result :=
        if st.appended_count < category.items.length ∧ st.result = .SUCCESS
        then .GENERIC_ERROR else st.result
      if category.type = .TASKS then
        if env.addUserTasksOk = false then
          if result = .SUCCESS then .GENERIC_ERROR else result
        else result
      else
        if FAILED env.appendCategoryHr then
          if env.appendCategoryHr = kMissingFileTypeRegistrationHr then
            .MISSING_FILE_TYPE_REGISTRATION_ERROR
          else if env.appendCategoryHr = E_ACCESSDENIED then
            .CUSTOM_CATEGORY_ACCESS_DENIED_ERROR
          else if result = .SUCCESS then .GENERIC_ERROR
          else result
        else result

/-- `true` iff the list contains a `SEPARATOR` item. -/
def hasSeparator : List JumpListItem → Bool
  | [] => false
  | item :: rest =>
    match item.type with
    | .SEPARATOR => true
    | _ => hasSeparator rest

/-- The loop positions of `AppendCategory`'s per-item loop at which a
native append is attempted: every position whose item is not a
`SEPARATOR`, plus separator positions when the category is Tasks. -/
def attemptedIdxs (ctype : JumpListCategoryType) :
    List JumpListItem → Nat → List Nat
  | [], _ => []
  | item :: rest, i =>
    match item.type with
    | .SEPARATOR =>
      if ctype = .TASKS then i :: attemptedIdxs ctype rest (i + 1)
      else attemptedIdxs ctype rest (i + 1)
    | _ => i :: attemptedIdxs ctype rest (i + 1)

/-- Outcomes of the native calls made by `AppendCategories`: the
`CategoryEnv` used when the category at position `i` is dispatched to
`AppendCategory`, and whether `AppendKnownCategory` succeeds for the
category at position `i`. -/
structure CategoriesEnv where
  catEnv : Nat → CategoryEnv
  appendKnownOk : Nat → Bool

/-- The body of the `switch (category.type)` in `AppendCategories`
(browser_win.cc lines 486-505): the `latestResult` computed for the
category at position `i`. -/
def categoryStepResult (cenv : CategoriesEnv) (i : Nat)
    (c : JumpListCategory) : JumpListResult :=
  match c.type with
  | .TASKS => AppendCategory (cenv.catEnv i) c
  | .CUSTOM => AppendCategory (cenv.catEnv i) c
  | .RECENT => if cenv.appendKnownOk i then .SUCCESS else .GENERIC_ERROR
  | .FREQUENT => if cenv.appendKnownOk i then .SUCCESS else .GENERIC_ERROR

/-- The `for (const auto& category : categories)` loop of
`AppendCategories` (browser_win.cc lines 484-512), carrying the `result`
accumulator. -/
def appendCategoriesLoop (cenv : CategoriesEnv) :
    List JumpListCategory → Nat → JumpListResult → JumpListResult
  | [], _, result => result
  | c :: rest, i, result =>
    let latestResult := categoryStepResult cenv i c
    let result' :=
      if (result = .SUCCESS ∨ result = .GENERIC_ERROR) ∧
          latestResult ≠ .SUCCESS
      then latestResult else result
    appendCategoriesLoop cenv rest (i + 1) result'

/-- `AppendCategories` (browser_win.cc lines 478-514). -/
def AppendCategories (cenv : CategoriesEnv)
    (categories : List JumpListCategory) : JumpListResult :=
  appendCategoriesLoop cenv categories 0 .SUCCESS

/-- The per-category results produced while `AppendCategories` walks the
category list: `categoryStepResult` at each position. -/
def perCategoryResults (cenv : CategoriesEnv) :
    List JumpListCategory → Nat → List JumpListResult
  | [], _ => []
  | c :: rest, i => categoryStepResult cenv i c ::
      perCategoryResults cenv rest (i + 1)

/-- The spec's precedence rule for folding per-category results (§4.4):
keep the first non-Success result encountered, but a non-Success,
non-GenericError result always overrides a previously recorded
GenericError.  This definition transcribes the spec's words; comparing it
with `AppendCategories` settles the refinement claim. -/
def specPrecedenceStep (acc r : JumpListResult) : JumpListResult :=
  if acc = .SUCCESS then r
  else if acc = .GENERIC_ERROR ∧ r ≠ .SUCCESS ∧ r ≠ .GENERIC_ERROR then r
  else acc

/-- Folding a whole result list with the spec's precedence rule;
starting from Success so that an all-Success list folds to Success. -/
def specPrecedenceFold (results : List JumpListResult) : JumpListResult :=
  results.foldl specPrecedenceStep .SUCCESS

/-- The native transaction-level calls `SetJumpList` makes on the
`ICustomDestinationList` object, in order. -/
inductive TxOp where
  | setAppID
  | beginList
  | commitList
  | abortList
  | deleteList
deriving DecidableEq, Repr

/-- Outcomes of the native and marshalling steps of
`Browser::SetJumpList`: whether the argument converts to a callback,
whether `CoCreateInstance(CLSID_DestinationList)` succeeds, the (ignored)
outcome of `DeleteList`, whether `SetAppID` succeeds, whether `BeginList`
succeeds, the categories the provider's return value parses into (`none`
when `ConvertFromV8` fails), the environment for `AppendCategories`, and
whether `CommitList` succeeds. -/
structure SetJumpListEnv where
  callbackValid : Bool
  createDestinationsOk : Bool
  deleteOk : Bool
  setAppIDOk : Bool
  beginListOk : Bool
  parsedCategories : Option (List JumpListCategory)
  catsEnv : CategoriesEnv
  commitOk : Bool

/-- `Browser::SetJumpList` (browser_win.cc lines 675-726), returning the
`JumpListResult` together with the trace of transaction-level native
calls it issued.  `delete_jump_list` is `val->IsNull()`. -/
def SetJumpList (env : SetJumpListEnv) (delete_jump_list : Bool) :
    JumpListResult × List TxOp :=
  if delete_jump_list = false ∧ env.callbackValid = false then
    (.ARGUMENT_ERROR, [])
  else if env.createDestinationsOk = false then (.GENERIC_ERROR, [])
  else if delete_jump_list then (.SUCCESS, [.deleteList])
  else if env.setAppIDOk = false then (.GENERIC_ERROR, [.setAppID])
  else if env.beginListOk = false then
    (.GENERIC_ERROR, [.setAppID, .beginList])
  else
    match env.parsedCategories with
    | some categories =>
      let result := AppendCategories env.catsEnv categories
      if env.commitOk = false then
        ((if result = .SUCCESS then .GENERIC_ERROR else result),
          [.setAppID, .beginList, .commitList])
      else (result, [.setAppID, .beginList, .commitList])
    | none => (.ARGUMENT_ERROR, [.setAppID, .beginList, .abortList])

/-- The data readable from an `IShellLink` handle in a removed-items
array: `GetPath`'s result (`none` when it fails), the
`PKEY_Link_Arguments` and `PKEY_Title` property values (`none` when the
read fails or the value is not `VT_LPWSTR`), `GetIconLocation`'s result
(`none` when it fails), and `GetDescription`'s result. -/
structure ShellLinkData where
  path : Option String
  argumentsProp : Option String
  titleProp : Option String
  iconLocation : Option (String × Int)
  description : Option String
deriving DecidableEq, Repr

/-- One element of the removed-items `IObjectArray`: queryable as an
`IShellItem` (file kind), as an `IShellLink` (shortcut kind), or
neither. -/
inductive RemovedNativeObject where
  | shellItem (displayName : Option String)
  | shellLink (link : ShellLinkData)
  | other
deriving DecidableEq, Repr

/-- `GetShellItemFileName` (browser_win.cc lines 317-329): writes the
filesystem display name into `file_name` only on success, leaving the
previous contents otherwise. -/
def GetShellItemFileName (displayName : Option String)
    (file_name : String) : Bool × String :=
  match displayName with
  | some n => (true, n)
  | none => (false, file_name)

/-- `ConvertShellLinkToJumpListItem` (browser_win.cc lines 516-561).
The C++ mutates the caller's `item` in place: the fields it does not
assign keep their previous values, so the function takes and returns the
whole item.  Note that `GetPath` is read into a local buffer whose
contents are never copied into `item->path`. -/
def ConvertShellLinkToJumpListItem (link : ShellLinkData)
    (item : JumpListItem) : Bool × JumpListItem :=
  let item := { item with type := .TASK }
  match link.path with
  | none => (false, item)
  | some _linkPath =>
    let item := { item with arguments := link.argumentsProp.getD "" }
    let item := { item with title := link.titleProp.getD "" }
    let item :=
      match link.iconLocation with
      | some il => { item with icon_path := il.1, icon_index := il.2 }
      | none => { item with icon_path := "", icon_index := 0 }
    let item := { item with description := link.description.getD "" }
    (true, item)

/-- The `for (UINT i = 0; i < removed_count; ++i)` loop of
`ConvertRemovedJumpListItems` (browser_win.cc lines 575-586), threading
the single reused `JumpListItem item` variable through the iterations;
its field mutations persist across iterations exactly as in the C++. -/
def convertRemovedLoop (item : JumpListItem) :
    List RemovedNativeObject → List JumpListItem
  | [] => []
  | obj :: rest =>
    match obj with
    | .shellItem displayName =>
      let item := { item with type := .FILE }
      let item :=
        { item with path := (GetShellItemFileName displayName item.path).2 }
      item :: convertRemovedLoop item rest
    | .shellLink link =>
      let (ok, item') := ConvertShellLinkToJumpListItem link item
      if ok then item' :: convertRemovedLoop item' rest
      else convertRemovedLoop item' rest
    | .other => convertRemovedLoop item rest

/-- The default-constructed `JumpListItem item;` at the top of the loop
in `ConvertRemovedJumpListItems`: string fields default-construct empty;
`type` and `icon_index` are value-indeterminate in C++ and are modelled
by fixed defaults here (they are overwritten before any emitted use on
the paths the claims exercise). -/
def initialRemovedItem : JumpListItem :=
  ⟨.TASK, "", "", "", "", "", 0⟩

/-- `ConvertRemovedJumpListItems` (browser_win.cc lines 564-588).  The
guard `SUCCEEDED(in->GetCount(&removed_count) && (removed_count > 0))`
applies `SUCCEEDED` to a boolean (0 or 1), so it is true in every case
and the loop always runs over the whole array. -/
def ConvertRemovedJumpListItems (ins : List RemovedNativeObject) :
    List JumpListItem :=
  convertRemovedLoop initialRemovedItem ins

/-! ### Helper lemmas about the per-item loop -/

lemma appendItemsLoop_result (env : CategoryEnv)
    (ctype : JumpListCategoryType) :
    ∀ (items : List JumpListItem) (i : Nat) (r : JumpListResult) (cnt : Nat),
    (appendItemsLoop env ctype items i r cnt).result =
      if ctype ≠ .TASKS ∧ hasSeparator items = true then
        .CUSTOM_CATEGORY_SEPARATOR_ERROR else r := by
  intro items
  induction items with
  | nil => intro i r cnt; simp [appendItemsLoop, hasSeparator]
  | cons item rest ih =>
    intro i r cnt
    cases h : item.type with
    | TASK => simp [appendItemsLoop, hasSeparator, h, ih]
    | FILE => simp [appendItemsLoop, hasSeparator, h, ih]
    | SEPARATOR =>
      by_cases ht : ctype = .TASKS
      · subst ht
        simp [appendItemsLoop, hasSeparator, h, ih]
      · simp [appendItemsLoop, hasSeparator, h, ht, ih]

lemma appendItemsLoop_attempted (env : CategoryEnv)
    (ctype : JumpListCategoryType) :
    ∀ (items : List JumpListItem) (i : Nat) (r : JumpListResult) (cnt : Nat),
    (appendItemsLoop env ctype items i r cnt).attempted =
      attemptedIdxs ctype items i := by
  intro items
  induction items with
  | nil => intro i r cnt; simp [appendItemsLoop, attemptedIdxs]
  | cons item rest ih =>
    intro i r cnt
    cases h : item.type with
    | TASK => simp [appendItemsLoop, attemptedIdxs, h, ih]
    | FILE => simp [appendItemsLoop, attemptedIdxs, h, ih]
    | SEPARATOR =>
      by_cases ht : ctype = .TASKS
      · subst ht
        simp [appendItemsLoop, attemptedIdxs, h, ih]
      · simp [appendItemsLoop, attemptedIdxs, h, ht, ih]

lemma attemptedIdxs_lower_bound (ctype : JumpListCategoryType) :
    ∀ (items : List JumpListItem) (s j : Nat),
    j ∈ attemptedIdxs ctype items s → s ≤ j := by
  intro items
  induction items with
  | nil => intro s j hj; simp [attemptedIdxs] at hj
  | cons item rest ih =>
    intro s j hj
    cases h : item.type with
    | SEPARATOR =>
      rw [attemptedIdxs, h] at hj
      by_cases ht : ctype = .TASKS
      · rw [if_pos ht] at hj
        rcases List.mem_cons.mp hj with hj | hj
        · omega
        · have := ih (s + 1) j hj; omega
      · rw [if_neg ht] at hj
        have := ih (s + 1) j hj; omega
    | TASK =>
      rw [attemptedIdxs, h] at hj
      rcases List.mem_cons.mp hj with hj | hj
      · omega
      · have := ih (s + 1) j hj; omega
    | FILE =>
      rw [attemptedIdxs, h] at hj
      rcases List.mem_cons.mp hj with hj | hj
      · omega
      · have := ih (s + 1) j hj; omega

lemma mem_attemptedIdxs_of_not_tasks (ctype : JumpListCategoryType)
    (ht : ctype ≠ .TASKS) :
    ∀ (items : List JumpListItem) (s j : Nat) (h : j < items.length),
    (s + j ∈ attemptedIdxs ctype items s ↔
      (items.get ⟨j, h⟩).type ≠ .SEPARATOR) := by
  intro items
  induction items with
  | nil => intro s j h; exact absurd h (Nat.not_lt_zero j)
  | cons item rest ih =>
    intro s j h
    cases j with
    | zero =>
      cases hT : item.type with
      | SEPARATOR =>
        simp only [attemptedIdxs, hT]
        rw [if_neg ht]
        constructor
        · intro hmem
          exact absurd
            (attemptedIdxs_lower_bound ctype rest (s + 1) (s + 0) hmem)
            (by omega)
        · intro hne
          have hne' : item.type ≠ JumpListItemType.SEPARATOR := hne
          exact absurd hT hne'
      | TASK => simp [attemptedIdxs, hT]
      | FILE => simp [attemptedIdxs, hT]
    | succ j' =>
      have h' : j' < rest.length := by
        simpa [Nat.succ_lt_succ_iff] using h
      have hget : (item :: rest).get ⟨j' + 1, h⟩ = rest.get ⟨j', h'⟩ := rfl
      cases hT : item.type with
      | SEPARATOR =>
        simp only [attemptedIdxs, hT]
        rw [if_neg ht, hget]
        have harith : s + (j' + 1) = (s + 1) + j' := by omega
        rw [harith]
        exact ih (s + 1) j' h'
      | TASK =>
        simp only [attemptedIdxs, hT]
        rw [hget, List.mem_cons]
        have harith : s + (j' + 1) = (s + 1) + j' := by omega
        constructor
        · intro hmem
          rcases hmem with hmem | hmem
          · omega
          · rw [harith] at hmem
            exact (ih (s + 1) j' h').mp hmem
        · intro hne
          right
          rw [harith]
          exact (ih (s + 1) j' h').mpr hne
      | FILE =>
        simp only [attemptedIdxs, hT]
        rw [hget, List.mem_cons]
        have harith : s + (j' + 1) = (s + 1) + j' := by omega
        constructor
        · intro hmem
          rcases hmem with hmem | hmem
          · omega
          · rw [harith] at hmem
            exact (ih (s + 1) j' h').mp hmem
        · intro hne
          right
          rw [harith]
          exact (ih (s + 1) j' h').mpr hne

/-! ### Helper lemmas about result folding -/

lemma codeStep_eq_specPrecedenceStep (acc latest : JumpListResult) :
    (if (acc = .SUCCESS ∨ acc = .GENERIC_ERROR) ∧ latest ≠ .SUCCESS
     then latest else acc) = specPrecedenceStep acc latest := by
  cases acc <;> cases latest <;> rfl

lemma appendCategoriesLoop_eq_fold (cenv : CategoriesEnv) :
    ∀ (categories : List JumpListCategory) (i : Nat) (acc : JumpListResult),
    appendCategoriesLoop cenv categories i acc =
      (perCategoryResults cenv categories i).foldl specPrecedenceStep acc := by
  intro categories
  induction categories with
  | nil => intro i acc; simp [appendCategoriesLoop, perCategoryResults]
  | cons c rest ih =>
    intro i acc
    rw [appendCategoriesLoop, perCategoryResults, List.foldl_cons,
      codeStep_eq_specPrecedenceStep]
    exact ih (i + 1) _

/-! ### No path produces ArgumentError inside the appenders -/

set_option maxHeartbeats 1600000 in
lemma appendCategory_ne_argumentError (env : CategoryEnv)
    (c : JumpListCategory) :
    AppendCategory env c ≠ .ARGUMENT_ERROR := by
  unfold AppendCategory
  dsimp only
  generalize hst : appendItemsLoop env c.type c.items 0 .SUCCESS 0 = st
  have hres : st.result = .SUCCESS ∨
      st.result = .CUSTOM_CATEGORY_SEPARATOR_ERROR := by
    rw [← hst, appendItemsLoop_result]
    split
    · right; rfl
    · left; rfl
  rcases hres with hres | hres <;> split_ifs <;> simp [hres]

lemma categoryStepResult_ne_argumentError (cenv : CategoriesEnv) (i : Nat)
    (c : JumpListCategory) :
    categoryStepResult cenv i c ≠ .ARGUMENT_ERROR := by
  unfold categoryStepResult
  split
  · exact appendCategory_ne_argumentError _ _
  · exact appendCategory_ne_argumentError _ _
  · split <;> simp
  · split <;> simp

lemma appendCategoriesLoop_ne_argumentError (cenv : CategoriesEnv) :
    ∀ (categories : List JumpListCategory) (i : Nat) (acc : JumpListResult),
    acc ≠ .ARGUMENT_ERROR →
    appendCategoriesLoop cenv categories i acc ≠ .ARGUMENT_ERROR := by
  intro categories
  induction categories with
  | nil => intro i acc hacc; simpa [appendCategoriesLoop] using hacc
  | cons c rest ih =>
    intro i acc hacc
    rw [appendCategoriesLoop]
    apply ih
    split
    · exact categoryStepResult_ne_argumentError cenv i c
    · exact hacc

lemma appendCategories_ne_argumentError (cenv : CategoriesEnv)
    (categories : List JumpListCategory) :
    AppendCategories cenv categories ≠ .ARGUMENT_ERROR :=
  appendCategoriesLoop_ne_argumentError cenv categories 0 .SUCCESS (by simp)

/-- The result values `AppendCategory` can produce: everything except
`ARGUMENT_ERROR`. -/
def categoryResultRange : List JumpListResult :=
  [.SUCCESS, .GENERIC_ERROR, .CUSTOM_CATEGORY_SEPARATOR_ERROR,
   .MISSING_FILE_TYPE_REGISTRATION_ERROR,
   .CUSTOM_CATEGORY_ACCESS_DENIED_ERROR]

lemma mem_categoryResultRange_of_ne (r : JumpListResult)
    (h : r ≠ .ARGUMENT_ERROR) : r ∈ categoryResultRange := by
  cases r <;> simp_all [categoryResultRange]

lemma appendCategoriesLoop_mem (cenv : CategoriesEnv) :
    ∀ (categories : List JumpListCategory) (i : Nat) (acc : JumpListResult),
    acc ∈ categoryResultRange →
    appendCategoriesLoop cenv categories i acc ∈ categoryResultRange := by
  intro categories
  induction categories with
  | nil => intro i acc hacc; simpa [appendCategoriesLoop] using hacc
  | cons c rest ih =>
    intro i acc hacc
    rw [appendCategoriesLoop]
    apply ih
    split
    · exact mem_categoryResultRange_of_ne _
        (categoryStepResult_ne_argumentError cenv i c)
    · exact hacc

/-! ### Concrete fixtures used by the claim theorems -/

/-- A well-formed task item. -/
def taskItemA : JumpListItem :=
  ⟨.TASK, "C:\\app.exe", "--open", "Open", "", "", 0⟩

/-- A separator item. -/
def sepItemA : JumpListItem :=
  ⟨.SEPARATOR, "", "", "", "", "", 0⟩

/-- A categories environment in which every native call succeeds. -/
def cenvTriv : CategoriesEnv :=
  ⟨fun _ => ⟨true, fun _ _ => true, true, 0⟩, fun _ => true⟩

/-- Environment in which every per-item builder call fails. -/
def envCE1 : CategoryEnv := ⟨true, fun _ _ => false, true, 0⟩

/-- A custom category with one task item. -/
def catCE1 : JumpListCategory := ⟨.CUSTOM, "Files", [taskItemA]⟩

/-- Environment in which only the builder call at position 0 succeeds and
the native custom-category append fails with `0x80040F03`. -/
def envCE3 : CategoryEnv :=
  ⟨true, fun i _ => i == 0, true, 0x80040F03⟩

/-- A custom category with two task items. -/
def catCE3 : JumpListCategory := ⟨.CUSTOM, "Files", [taskItemA, taskItemA]⟩

/-- Environment in which every builder call succeeds and the native
custom-category append fails with `E_FAIL` (`0x80004005`), a failure code
distinct from the two specifically mapped codes. -/
def envCE6 : CategoryEnv := ⟨true, fun _ _ => true, true, 0x80004005⟩

/-- A custom category holding a task followed by a separator. -/
def catCE6 : JumpListCategory := ⟨.CUSTOM, "Recent", [taskItemA, sepItemA]⟩

/-- Environment for the C6 witness: custom-category append fails with
the missing-file-type-registration code. -/
def envC6W : CategoryEnv := ⟨true, fun _ _ => true, true, 0x80040F03⟩

/-- A custom category with one task item. -/
def catC6W : JumpListCategory := ⟨.CUSTOM, "Docs", [taskItemA]⟩

/-- Environment for the C4 witness: all native calls succeed. -/
def envC4W : CategoryEnv := ⟨true, fun _ _ => true, true, 0⟩

/-- A custom category holding a separator followed by a task. -/
def catC4W : JumpListCategory := ⟨.CUSTOM, "People", [sepItemA, taskItemA]⟩

/-- Categories environment whose per-category results are
`[SUCCESS, MISSING_FILE_TYPE_REGISTRATION_ERROR, GENERIC_ERROR]` for
`catsC2`. -/
def cenvC2 : CategoriesEnv :=
  ⟨fun i => if i == 1 then ⟨true, fun _ _ => true, true, 0x80040F03⟩
            else ⟨true, fun _ _ => true, true, 0⟩,
   fun i => i != 2⟩

/-- Three categories: a Recent activation that succeeds, a custom
category whose native append fails with `0x80040F03`, and a Recent
activation that fails. -/
def catsC2 : List JumpListCategory :=
  [⟨.RECENT, "", []⟩, ⟨.CUSTOM, "Files", [taskItemA]⟩, ⟨.RECENT, "", []⟩]

/-- `SetJumpList` environment for the C5 witness: everything up to the
commit succeeds, the categories fold to a specific error, and the commit
fails. -/
def envC5W : SetJumpListEnv :=
  ⟨true, true, true, true, true, some catsC2, cenvC2, false⟩

/-- `SetJumpList` environment for the C7 witness: the provider's return
value fails to parse. -/
def envC7W : SetJumpListEnv :=
  ⟨true, true, true, true, true, none, cenvTriv, true⟩

/-- `SetJumpList` environment in which the OS `DeleteList` call fails
(`deleteOk = false`) while everything else succeeds. -/
def envCE8 : SetJumpListEnv :=
  ⟨true, true, false, true, true, some [], cenvTriv, true⟩

/-- `SetJumpList` environment whose argument is not a valid callback. -/
def envC10W : SetJumpListEnv :=
  ⟨false, true, true, true, true, some [], cenvTriv, true⟩

/-- Removed-items array for C9: a file-kind handle resolving to
`C:\removed.txt`, followed by a shortcut-kind handle whose `GetPath`
returns `C:\app.exe` and whose optional properties are all absent. -/
def c9Input : List RemovedNativeObject :=
  [.shellItem (some "C:\\removed.txt"),
   .shellLink ⟨some "C:\\app.exe", none, none, none, none⟩]

/-! ### Claim theorems -/

/-- C1, counterexample: a non-empty custom category with a single task
item whose builder call fails has `appended_count = 0` after the loop,
yet `AppendCategory` returns `SUCCESS` — refuting the claim that it
returns a recorded error or `GENERIC_ERROR` and never `SUCCESS` in this
case. -/
theorem c1_counterexample :
    catCE1.items.isEmpty = false ∧
    envCE1.createCollectionOk = true ∧
    (appendItemsLoop envCE1 catCE1.type catCE1.items 0 .SUCCESS 0).appended_count
      = 0 ∧
    AppendCategory envCE1 catCE1 = .SUCCESS := by
  decide

/-- C1, amended: for a non-empty category whose collection was created,
if the loop appended zero items then `AppendCategory` returns exactly
the category-level result recorded during the loop:
`CUSTOM_CATEGORY_SEPARATOR_ERROR` when the category is not Tasks and
contains a separator, and `SUCCESS` otherwise — in particular `SUCCESS`
(not `GENERIC_ERROR`) when no specific error was recorded even though
nothing was appended. -/
theorem c1_amended (env : CategoryEnv) (c : JumpListCategory)
    (h1 : c.items.isEmpty = false)
    (h2 : env.createCollectionOk = true)
    (h3 : (appendItemsLoop env c.type c.items 0 .SUCCESS 0).appended_count
      = 0) :
    AppendCategory env c =
      if c.type ≠ .TASKS ∧ hasSeparator c.items = true then
        .CUSTOM_CATEGORY_SEPARATOR_ERROR
      else .SUCCESS := by
  have hr := appendItemsLoop_result env c.type c.items 0 .SUCCESS 0
  simp [AppendCategory, h1, h2, h3, hr]

/-- C1, witness for the amended theorem at a concrete input. -/
theorem c1_amended_witness :
    AppendCategory envCE1 catCE1 =
      if catCE1.type ≠ .TASKS ∧ hasSeparator catCE1.items = true then
        .CUSTOM_CATEGORY_SEPARATOR_ERROR
      else .SUCCESS :=
  c1_amended envCE1 catCE1 (by decide) (by decide) (by decide)

/-- C2: `AppendCategories` folds the per-category results exactly by the
spec's precedence rule (`specPrecedenceFold`: keep the first non-Success
result, but a specific error always overrides a previously recorded
GenericError; all-Success folds to Success), and on concrete categories
producing `[SUCCESS, MISSING_FILE_TYPE_REGISTRATION_ERROR,
GENERIC_ERROR]` in order the folded result is
`MISSING_FILE_TYPE_REGISTRATION_ERROR`. -/
theorem c2_appendCategories_precedence :
    (∀ (cenv : CategoriesEnv) (categories : List JumpListCategory),
      AppendCategories cenv categories =
        specPrecedenceFold (perCategoryResults cenv categories 0)) ∧
    specPrecedenceFold
      [.SUCCESS, .MISSING_FILE_TYPE_REGISTRATION_ERROR, .GENERIC_ERROR] =
      .MISSING_FILE_TYPE_REGISTRATION_ERROR ∧
    perCategoryResults cenvC2 catsC2 0 =
      [.SUCCESS, .MISSING_FILE_TYPE_REGISTRATION_ERROR, .GENERIC_ERROR] ∧
    AppendCategories cenvC2 catsC2 =
      .MISSING_FILE_TYPE_REGISTRATION_ERROR :=
  ⟨fun cenv categories =>
      appendCategoriesLoop_eq_fold cenv categories 0 .SUCCESS,
    by decide, by decide, by decide⟩

/-- C3, counterexample: a custom category where exactly one of two items
is appended (strictly between 0 and `items.size()`) and no error is
recorded during the loop, yet the returned result is
`MISSING_FILE_TYPE_REGISTRATION_ERROR` (the native append failed with
`0x80040F03`), not `GENERIC_ERROR` — refuting the claim that the
returned result is `GENERIC_ERROR` in this case. -/
theorem c3_counterexample :
    0 < (appendItemsLoop envCE3 catCE3.type catCE3.items 0 .SUCCESS
      0).appended_count ∧
    (appendItemsLoop envCE3 catCE3.type catCE3.items 0 .SUCCESS
      0).appended_count < catCE3.items.length ∧
    (appendItemsLoop envCE3 catCE3.type catCE3.items 0 .SUCCESS 0).result
      = .SUCCESS ∧
    AppendCategory envCE3 catCE3 = .MISSING_FILE_TYPE_REGISTRATION_ERROR ∧
    JumpListResult.MISSING_FILE_TYPE_REGISTRATION_ERROR ≠
      .GENERIC_ERROR := by
  decide

/-- C3, amended: when the appended count is strictly between 0 and
`items.size()` and no error was recorded during the loop, the returned
result is never `SUCCESS`; it is `GENERIC_ERROR` except that for a
non-Tasks category whose native append-by-name fails with `0x80040F03`
or `E_ACCESSDENIED` the corresponding specific error is returned
instead. -/
theorem c3_amended (env : CategoryEnv) (c : JumpListCategory)
    (h2 : env.createCollectionOk = true)
    (h4 : 0 < (appendItemsLoop env c.type c.items 0 .SUCCESS
      0).appended_count)
    (h5 : (appendItemsLoop env c.type c.items 0 .SUCCESS
      0).appended_count < c.items.length)
    (h6 : (appendItemsLoop env c.type c.items 0 .SUCCESS 0).result
      = .SUCCESS) :
    AppendCategory env c ≠ .SUCCESS ∧
    AppendCategory env c =
      (if c.type = .TASKS then .GENERIC_ERROR
       else if FAILED env.appendCategoryHr = true then
         (if env.appendCategoryHr = kMissingFileTypeRegistrationHr then
            .MISSING_FILE_TYPE_REGISTRATION_ERROR
          else if env.appendCategoryHr = E_ACCESSDENIED then
            .CUSTOM_CATEGORY_ACCESS_DENIED_ERROR
          else .GENERIC_ERROR)
       else .GENERIC_ERROR) := by
  have h1 : c.items.isEmpty = false := by
    cases hi : c.items with
    | nil => rw [hi] at h5; simp at h5
    | cons a l => simp [hi]
  have h0 : ¬ (appendItemsLoop env c.type c.items 0 .SUCCESS
      0).appended_count = 0 := by omega
  have key : AppendCategory env c =
      (if c.type = .TASKS then .GENERIC_ERROR
       else if FAILED env.appendCategoryHr = true then
         (if env.appendCategoryHr = kMissingFileTypeRegistrationHr then
            .MISSING_FILE_TYPE_REGISTRATION_ERROR
          else if env.appendCategoryHr = E_ACCESSDENIED then
            .CUSTOM_CATEGORY_ACCESS_DENIED_ERROR
          else .GENERIC_ERROR)
       else .GENERIC_ERROR) := by
    simp [AppendCategory, h1, h2, h0, h5, h6]
  refine ⟨?_, key⟩
  rw [key]
  split_ifs <;> simp

/-- C3, witness for the amended theorem at a concrete input. -/
theorem c3_amended_witness :
    AppendCategory envCE3 catCE3 ≠ .SUCCESS ∧
    AppendCategory envCE3 catCE3 =
      (if catCE3.type = .TASKS then .GENERIC_ERROR
       else if FAILED envCE3.appendCategoryHr = true then
         (if envCE3.appendCategoryHr = kMissingFileTypeRegistrationHr then
            .MISSING_FILE_TYPE_REGISTRATION_ERROR
          else if envCE3.appendCategoryHr = E_ACCESSDENIED then
            .CUSTOM_CATEGORY_ACCESS_DENIED_ERROR
          else .GENERIC_ERROR)
       else .GENERIC_ERROR) :=
  c3_amended envCE3 catCE3 (by decide) (by decide) (by decide) (by decide)

/-- C4: in the per-item loop of `AppendCategory`, for a non-Tasks
category containing a separator, the loop records
`CUSTOM_CATEGORY_SEPARATOR_ERROR` as the category-level result, and a
position is attempted (its builder invoked) exactly when its item is not
a separator — so no separator is attempted and every non-separator item
of the category is still attempted. -/
theorem c4_custom_separator_skipped (env : CategoryEnv)
    (c : JumpListCategory)
    (h1 : c.type ≠ .TASKS)
    (h2 : hasSeparator c.items = true) :
    (appendItemsLoop env c.type c.items 0 .SUCCESS 0).result =
      .CUSTOM_CATEGORY_SEPARATOR_ERROR ∧
    ∀ (j : Nat) (hj : j < c.items.length),
      (j ∈ (appendItemsLoop env c.type c.items 0 .SUCCESS 0).attempted ↔
        (c.items.get ⟨j, hj⟩).type ≠ .SEPARATOR) := by
  constructor
  · rw [appendItemsLoop_result, if_pos ⟨h1, h2⟩]
  · intro j hj
    rw [appendItemsLoop_attempted]
    have hmem := mem_attemptedIdxs_of_not_tasks c.type h1 c.items 0 j hj
    simpa using hmem

/-- C4, witness at a concrete input: a custom category
`[separator, task]` records the separator error. -/
theorem c4_witness :
    (appendItemsLoop envC4W catC4W.type catC4W.items 0 .SUCCESS 0).result =
      .CUSTOM_CATEGORY_SEPARATOR_ERROR :=
  (c4_custom_separator_skipped envC4W catC4W (by decide) (by decide)).1

/-- C5: when everything up to category processing succeeds and
`CommitList` fails, `SetJumpList` returns the `AppendCategories` result
when it is not `SUCCESS`, and `GENERIC_ERROR` (for the commit failure)
only when the category-processing result was `SUCCESS`. -/
theorem c5_commit_failure (env : SetJumpListEnv)
    (categories : List JumpListCategory)
    (h1 : env.callbackValid = true)
    (h2 : env.createDestinationsOk = true)
    (h3 : env.setAppIDOk = true)
    (h4 : env.beginListOk = true)
    (h5 : env.parsedCategories = some categories)
    (h6 : env.commitOk = false) :
    (SetJumpList env false).1 =
      (if AppendCategories env.catsEnv categories = .SUCCESS then
        .GENERIC_ERROR
       else AppendCategories env.catsEnv categories) := by
  simp [SetJumpList, h1, h2, h3, h4, h5, h6]

/-- C5, witness at a concrete input whose categories fold to
`MISSING_FILE_TYPE_REGISTRATION_ERROR`. -/
theorem c5_witness :
    (SetJumpList envC5W false).1 =
      (if AppendCategories envC5W.catsEnv catsC2 = .SUCCESS then
        .GENERIC_ERROR
       else AppendCategories envC5W.catsEnv catsC2) :=
  c5_commit_failure envC5W catsC2 (by decide) (by decide) (by decide)
    (by decide) (by decide) (by decide)

/-- C7: when the provider's return value fails to parse into a category
list, `SetJumpList` calls `AbortList`, returns `ARGUMENT_ERROR`, and
issues neither `CommitList` nor `DeleteList` (the only trace operations
that change the persisted OS list), so the OS list is unchanged. -/
theorem c7_abort_on_parse_failure (env : SetJumpListEnv)
    (h1 : env.callbackValid = true)
    (h2 : env.createDestinationsOk = true)
    (h3 : env.setAppIDOk = true)
    (h4 : env.beginListOk = true)
    (h5 : env.parsedCategories = none) :
    (SetJumpList env false).1 = .ARGUMENT_ERROR ∧
    TxOp.abortList ∈ (SetJumpList env false).2 ∧
    TxOp.commitList ∉ (SetJumpList env false).2 ∧
    TxOp.deleteList ∉ (SetJumpList env false).2 := by
  simp [SetJumpList, h1, h2, h3, h4, h5]

/-- C7, witness at a concrete input. -/
theorem c7_witness :
    (SetJumpList envC7W false).1 = .ARGUMENT_ERROR ∧
    TxOp.abortList ∈ (SetJumpList envC7W false).2 ∧
    TxOp.commitList ∉ (SetJumpList envC7W false).2 ∧
    TxOp.deleteList ∉ (SetJumpList envC7W false).2 :=
  c7_abort_on_parse_failure envC7W (by decide) (by decide) (by decide)
    (by decide) (by decide)

/-- C6, counterexample: a custom category whose native append-by-name
fails with `0x80004005` (neither of the two mapped codes) does not fall
back to `GENERIC_ERROR` when a separator error was recorded during the
loop: the returned result is `CUSTOM_CATEGORY_SEPARATOR_ERROR` —
refuting the unconditional fallback of the claim. -/
theorem c6_counterexample :
    catCE6.type = .CUSTOM ∧
    FAILED envCE6.appendCategoryHr = true ∧
    envCE6.appendCategoryHr ≠ kMissingFileTypeRegistrationHr ∧
    envCE6.appendCategoryHr ≠ E_ACCESSDENIED ∧
    AppendCategory envCE6 catCE6 = .CUSTOM_CATEGORY_SEPARATOR_ERROR ∧
    JumpListResult.CUSTOM_CATEGORY_SEPARATOR_ERROR ≠ .GENERIC_ERROR := by
  decide

/-- C6, amended: for a custom category that reaches the native
append-by-name call and sees it fail, the codes `0x80040F03` and
`E_ACCESSDENIED` map unconditionally to
`MISSING_FILE_TYPE_REGISTRATION_ERROR` and
`CUSTOM_CATEGORY_ACCESS_DENIED_ERROR`; any other failure code falls back
to `GENERIC_ERROR` only when the result computed before the call was
`SUCCESS`, and otherwise that earlier result (a recorded separator error
or the partial-loss `GENERIC_ERROR`) is returned unchanged. -/
theorem c6_amended (env : CategoryEnv) (c : JumpListCategory)
    (hc : c.type = .CUSTOM)
    (h1 : c.items.isEmpty = false)
    (h2 : env.createCollectionOk = true)
    (h4 : (appendItemsLoop env c.type c.items 0 .SUCCESS 0).appended_count
      ≠ 0)
    (h7 : FAILED env.appendCategoryHr = true) :
    (env.appendCategoryHr = kMissingFileTypeRegistrationHr →
      AppendCategory env c = .MISSING_FILE_TYPE_REGISTRATION_ERROR) ∧
    (env.appendCategoryHr = E_ACCESSDENIED →
      AppendCategory env c = .CUSTOM_CATEGORY_ACCESS_DENIED_ERROR) ∧
    (env.appendCategoryHr ≠ kMissingFileTypeRegistrationHr →
      env.appendCategoryHr ≠ E_ACCESSDENIED →
      AppendCategory env c =
        (if (if (appendItemsLoop env c.type c.items 0 .SUCCESS
                0).appended_count < c.items.length ∧
              (appendItemsLoop env c.type c.items 0 .SUCCESS 0).result
                = .SUCCESS
            then JumpListResult.GENERIC_ERROR
            else (appendItemsLoop env c.type c.items 0 .SUCCESS 0).result)
            = .SUCCESS
         then .GENERIC_ERROR
         else
           (if (appendItemsLoop env c.type c.items 0 .SUCCESS
                0).appended_count < c.items.length ∧
              (appendItemsLoop env c.type c.items 0 .SUCCESS 0).result
                = .SUCCESS
            then JumpListResult.GENERIC_ERROR
            else (appendItemsLoop env c.type c.items 0 .SUCCESS
              0).result))) := by
  rw [hc] at h4
  have hFm : FAILED kMissingFileTypeRegistrationHr = true := by decide
  have hFa : FAILED E_ACCESSDENIED = true := by decide
  have hAm : E_ACCESSDENIED ≠ kMissingFileTypeRegistrationHr := by decide
  refine ⟨?_, ?_, ?_⟩
  · intro heq
    simp [AppendCategory, h1, h2, h4, hc, heq, hFm]
  · intro heq
    simp [AppendCategory, h1, h2, h4, hc, heq, hFa, hAm]
  · intro hn1 hn2
    simp [AppendCategory, h1, h2, h4, hc, h7, hn1, hn2]

/-- C6, witness for the amended theorem: the `0x80040F03` mapping at a
concrete input. -/
theorem c6_amended_witness :
    AppendCategory envC6W catC6W = .MISSING_FILE_TYPE_REGISTRATION_ERROR :=
  (c6_amended envC6W catC6W (by decide) (by decide) (by decide) (by decide)
    (by decide)).1 (by decide)

/-- C8, counterexample: with `delete_jump_list = true` and a failing OS
`DeleteList` call, `SetJumpList` still returns `SUCCESS` (the call's
result is ignored) — refuting the claim that it returns `GENERIC_ERROR`
when the OS delete call fails. -/
theorem c8_counterexample :
    envCE8.deleteOk = false ∧
    SetJumpList envCE8 true = (.SUCCESS, [TxOp.deleteList]) ∧
    JumpListResult.SUCCESS ≠ .GENERIC_ERROR := by
  decide

/-- C8, amended: with `delete_jump_list = true`, `SetJumpList` returns
`GENERIC_ERROR` (with no native list calls) only when creating the
destination-list object fails; otherwise it issues exactly the
`DeleteList` call — with no prior `BeginList` — and returns `SUCCESS`
regardless of whether that call succeeds. -/
theorem c8_amended (env : SetJumpListEnv) :
    SetJumpList env true =
      (if env.createDestinationsOk = false then (.GENERIC_ERROR, [])
       else (.SUCCESS, [TxOp.deleteList])) := by
  by_cases h : env.createDestinationsOk = false <;> simp [SetJumpList, h]

/-- C9: the code evaluated at `c9Input` (a file-kind handle resolving to
`C:\removed.txt` followed by a shortcut-kind handle whose `GetPath`
returns `C:\app.exe`): the emitted Task item's `path` is the stale
`C:\removed.txt` left over from the previous File item, not the link's
own `C:\app.exe`, because `ConvertShellLinkToJumpListItem` never assigns
`item->path`. -/
theorem c9_stale_task_path :
    ConvertRemovedJumpListItems c9Input =
      [{ type := .FILE, path := "C:\\removed.txt", arguments := "",
         title := "", description := "", icon_path := "", icon_index := 0 },
       { type := .TASK, path := "C:\\removed.txt", arguments := "",
         title := "", description := "", icon_path := "",
         icon_index := 0 }] ∧
    ("C:\\removed.txt" : String) ≠ "C:\\app.exe" :=
  ⟨rfl, by decide⟩

/-- C10: `AppendCategory` only produces `SUCCESS`, `GENERIC_ERROR`,
`CUSTOM_CATEGORY_SEPARATOR_ERROR`,
`MISSING_FILE_TYPE_REGISTRATION_ERROR` or
`CUSTOM_CATEGORY_ACCESS_DENIED_ERROR` (never `ARGUMENT_ERROR`);
`AppendCategories` preserves this range; and `SetJumpList` returns
`ARGUMENT_ERROR` only on its argument-conversion or provider-parsing
paths. -/
theorem c10_result_taxonomy :
    (∀ (env : CategoryEnv) (c : JumpListCategory),
      AppendCategory env c ∈ categoryResultRange) ∧
    (∀ (cenv : CategoriesEnv) (categories : List JumpListCategory),
      AppendCategories cenv categories ∈ categoryResultRange) ∧
    (∀ (env : SetJumpListEnv) (delete_jump_list : Bool),
      (SetJumpList env delete_jump_list).1 = .ARGUMENT_ERROR →
        (delete_jump_list = false ∧ env.callbackValid = false) ∨
          env.parsedCategories = none) := by
  refine ⟨?_, ?_, ?_⟩
  · intro env c
    exact mem_categoryResultRange_of_ne _
      (appendCategory_ne_argumentError env c)
  · intro cenv categories
    exact appendCategoriesLoop_mem cenv categories 0 .SUCCESS
      (by simp [categoryResultRange])
  · intro env delete_jump_list h
    by_cases hd : delete_jump_list = false ∧ env.callbackValid = false
    · exact Or.inl hd
    · rw [SetJumpList, if_neg hd] at h
      by_cases hcr : env.createDestinationsOk = false
      · rw [if_pos hcr] at h
        simp at h
      · rw [if_neg hcr] at h
        by_cases hdel : delete_jump_list = true
        · rw [if_pos hdel] at h
          simp at h
        · rw [if_neg hdel] at h
          by_cases hsa : env.setAppIDOk = false
          · rw [if_pos hsa] at h
            simp at h
          · rw [if_neg hsa] at h
            by_cases hbl : env.beginListOk = false
            · rw [if_pos hbl] at h
              simp at h
            · rw [if_neg hbl] at h
              cases hp : env.parsedCategories with
              | none => exact Or.inr rfl
              | some categories =>
                rw [hp] at h
                have hne := appendCategories_ne_argumentError
                  env.catsEnv categories
                dsimp only at h
                by_cases hco : env.commitOk = false
                · rw [if_pos hco] at h
                  dsimp only at h
                  split_ifs at h
                  exact absurd h hne
                · rw [if_neg hco] at h
                  exact absurd h hne

/-- C10, witness: the third component applied at a concrete environment
whose argument is not a valid callback. -/
theorem c10_witness :
    (false = false ∧ envC10W.callbackValid = false) ∨
      envC10W.parsedCategories = none :=
  c10_result_taxonomy.2.2 envC10W false (by decide)

end BrowserWin
